import Mathlib

/-!
Shallow embedding of the authentication and authorization core of the
bug-tracking backend: `src/utils/security.py`, `src/services/auth_service.py`,
`src/services/permission_service.py` and the SQLAlchemy models they use
(`src/models/user.py`, `src/models/user_session.py`,
`src/models/token_blacklist.py`, `src/models/project.py`,
`src/models/issue.py`, `src/models/comment.py`).

Modelling conventions:
* Time is a `Nat` number of seconds (`datetime.utcnow()` becomes an explicit
  `now` parameter); `timedelta(minutes=m)` is `m * 60`, `timedelta(days=d)`
  is `d * 86400`.
* UUID-valued primary keys are `Nat`; the JSON layer's `str(uuid)` /
  `uuid.UUID(s)` round-trip is a bijection that we elide, keeping `sub` as
  `Option Nat` directly (absent claims are `none`, and `uuid.UUID(None)`
  raising `TypeError` is modelled explicitly).
* Fresh random values (bcrypt salts, `uuid.uuid4()` jti values) are explicit
  parameters.
* The RSA key pair of `Settings` is one abstract `Nat` key: `jwt.encode`
  signs with the private key, `jwt.decode` verifies with the matching public
  key, so a signature is valid exactly when the token's key equals the
  configured key.
* Exceptions become `Except`: the named error kinds of
  `src/app/exceptions.py` that the auth core raises, plus the Python-level
  failures (`ValueError`, `TypeError`/`KeyError`, passlib's
  `UnknownHashError`, SQLAlchemy's `IntegrityError`) that the service code
  can let escape.
-/

namespace BugTracker

/-- Error kinds raised by the auth core (`src/app/exceptions.py`), together
with the unhandled Python/database failures its code can produce. -/
inductive AppError
  | unauthorized
  | tokenExpired
  | forbidden
  | insufficientPermissions
  | conflict
  | notFound
  | valueError
  | typeError
  | keyError
  | integrityError
  | passlibUnknownHash
deriving DecidableEq, Repr

/-- The fields of `Settings` (`src/app/config.py`) consumed by the auth
core, with the source's default values. `jwt_key` stands for the RSA key
pair referenced by `jwt_private_key_path` / `jwt_public_key_path`. -/
structure Settings where
  jwt_access_token_expire_minutes : Nat := 15
  jwt_refresh_token_expire_days : Nat := 7
  jwt_key : Nat := 0
  max_login_attempts : Nat := 5
  account_lockout_duration_minutes : Nat := 30
deriving DecidableEq, Repr

/-! ## Credential store (`src/utils/security.py`, bcrypt via passlib) -/

/-- Idealised bcrypt digest: an injective function of salt and password
(the real digest is one-way; only equality behaviour matters here). -/
def bcryptDigest (salt password : String) : String :=
  salt ++ "|" ++ password

/-- `hash_password` (security.py line 18): a modular-crypt-format bcrypt
string `$2b$12$<salt>$<digest>` with a caller-supplied fresh salt. -/
def hash_password (salt password : String) : String :=
  "$2b$" ++ "12" ++ "$" ++ salt ++ "$" ++ bcryptDigest salt password

/-- Split a character list on `$`, the separator of the modular crypt
format (structural helper for hash identification). -/
def splitDollar : List Char → List Char → List (List Char)
  | [], acc => [acc.reverse]
  | c :: cs, acc =>
    if c = '$' then acc.reverse :: splitDollar cs [] else splitDollar cs (c :: acc)

/-- passlib's hash identification step: a string is recognised as a bcrypt
hash exactly when it has the shape `$2b$12$<salt>$<digest>`. -/
def parseBcrypt (h : String) : Option (String × String) :=
  match splitDollar h.data [] with
  | [[], ['2', 'b'], ['1', '2'], salt, digest] =>
      some (String.mk salt, String.mk digest)
  | _ => none

/-- Result of `CryptContext.verify`: a boolean, or passlib's
`UnknownHashError` (a `ValueError`) when the hash cannot be identified. -/
inductive VerifyResult
  | ok (b : Bool)
  | unknownHashError
deriving DecidableEq, Repr

/-- `pwd_context.verify` (passlib): identify the hash scheme, then compare
the candidate digest; raises `UnknownHashError` for a malformed hash. -/
def pwd_context_verify (plain hashed : String) : VerifyResult :=
  match parseBcrypt hashed with
  | some (salt, digest) => .ok (bcryptDigest salt plain == digest)
  | none => .unknownHashError

/-- `verify_password` (security.py lines 30-40): delegates directly to
`pwd_context.verify` with no exception handling. -/
def verify_password (plain_password hashed_password : String) : VerifyResult :=
  pwd_context_verify plain_password hashed_password

/-! ## Token codec (`src/utils/security.py`, PyJWT) -/

/-- The claim set of a structurally valid JWT payload; each claim may be
absent (PyJWT imposes no required claims by default). -/
structure JwtPayload where
  sub : Option Nat := none
  role : Option String := none
  exp : Option Nat := none
  iat : Option Nat := none
  jti : Option String := none
  type : Option String := none
deriving DecidableEq, Repr

/-- A wire token: either not a structurally valid JWT at all, or a
well-formed token whose signature was produced with `key`. -/
inductive Jwt
  | malformed (raw : String)
  | signed (payload : JwtPayload) (key : Nat)
deriving DecidableEq, Repr

/-- The PyJWT exceptions distinguished by `decode_token`. -/
inductive JwtError
  | decodeError
  | invalidSignature
  | expiredSignature
deriving DecidableEq, Repr

/-- `jwt.decode(token, public_key, algorithms=[...])`: malformed structure
and bad signatures raise `InvalidTokenError` subclasses; when an `exp`
claim is present and in the past it raises `ExpiredSignatureError`
(PyJWT checks `exp < now` with zero leeway); a payload with missing
claims is returned as-is. -/
def jwt_decode (t : Jwt) (key : Nat) (now : Nat) : Except JwtError JwtPayload :=
  match t with
  | .malformed _ => .error .decodeError
  | .signed p k =>
    if k = key then
      match p.exp with
      | some e => if e < now then .error .expiredSignature else .ok p
      | none => .ok p
    else .error .invalidSignature

/-- `decode_token` (security.py lines 138-162): maps
`jwt.ExpiredSignatureError` to `TokenExpiredError` and every other
`jwt.InvalidTokenError` to `UnauthorizedError`. -/
def decode_token (cfg : Settings) (now : Nat) (token : Jwt) : Except AppError JwtPayload :=
  match jwt_decode token cfg.jwt_key now with
  | .ok p => .ok p
  | .error .expiredSignature => .error .tokenExpired
  | .error _ => .error .unauthorized

/-- `create_access_token` (security.py lines 66-99) with the default
`expires_delta`; `jti` is the fresh `uuid.uuid4()` string. -/
def create_access_token (cfg : Settings) (now : Nat) (jti : String)
    (user_id : Nat) (role : String) : Jwt × String :=
  let payload : JwtPayload :=
    { sub := some user_id
      role := some role
      exp := some (now + cfg.jwt_access_token_expire_minutes * 60)
      iat := some now
      jti := some jti
      type := some "access" }
  (.signed payload cfg.jwt_key, jti)

/-- `create_refresh_token` (security.py lines 102-135) with the default
`expires_delta`. -/
def create_refresh_token (cfg : Settings) (now : Nat) (jti : String)
    (user_id : Nat) (role : String) : Jwt × String :=
  let payload : JwtPayload :=
    { sub := some user_id
      role := some role
      exp := some (now + cfg.jwt_refresh_token_expire_days * 86400)
      iat := some now
      jti := some jti
      type := some "refresh" }
  (.signed payload cfg.jwt_key, jti)

/-! ## Data model (`src/models/`) -/

/-- `UserRole` (user.py lines 16-21). -/
inductive UserRole
  | developer
  | manager
  | admin
deriving DecidableEq, Repr

/-- `UserRole.value`, the string stored in token claims. -/
def UserRole.value : UserRole → String
  | .developer => "developer"
  | .manager => "manager"
  | .admin => "admin"

/-- The `users` row fields used by the auth core (user.py). -/
structure UserRecord where
  id : Nat
  username : String := ""
  email : String
  password_hash : String
  role : UserRole := .developer
  is_active : Bool := true
  failed_login_attempts : Nat := 0
  locked_until : Option Nat := none
  last_login : Option Nat := none
deriving DecidableEq, Repr

/-- The `user_sessions` row fields used by the auth core
(user_session.py). -/
structure UserSession where
  user_id : Nat
  refresh_token_jti : String
  ip_address : String := ""
  user_agent : String := ""
  expires_at : Nat
deriving DecidableEq, Repr

/-- A `token_blacklist` row (token_blacklist.py); `jti` carries a UNIQUE
constraint (line 20). -/
structure TokenBlacklist where
  jti : String
  token_type : String
  expires_at : Nat
deriving DecidableEq, Repr

/-- The database state visible to `AuthService`. -/
structure DB where
  users : List UserRecord := []
  sessions : List UserSession := []
  blacklist : List TokenBlacklist := []
deriving DecidableEq, Repr

/-- Committing a batch of staged `TokenBlacklist` inserts: the UNIQUE
constraint on `token_blacklist.jti` makes the commit raise
`IntegrityError` whenever a staged jti duplicates an existing or another
staged one. -/
def commitBlacklistInserts (db : DB) (added : List TokenBlacklist) : Except AppError DB :=
  if ((db.blacklist ++ added).map (fun b => b.jti)).Nodup then
    .ok { db with blacklist := db.blacklist ++ added }
  else
    .error .integrityError

/-- SQLAlchemy object-identity update: replace the row with primary key
`uid` by the mutated record `u'` (primary keys are unique). -/
def updateUser (db : DB) (uid : Nat) (u' : UserRecord) : DB :=
  { db with users := db.users.map (fun x => if x.id == uid then u' else x) }

/-! ## Auth service (`src/services/auth_service.py`) -/

/-- The `TokenResponse` schema fields returned by login/refresh. -/
structure TokenResponse where
  access_token : Jwt
  refresh_token : Jwt
  token_type : String := "bearer"
  expires_in : Nat
deriving DecidableEq, Repr

/-- `AuthService.is_token_blacklisted` (auth_service.py lines 265-276):
a row lookup on `token_blacklist.jti`. -/
def is_token_blacklisted (db : DB) (jti : String) : Bool :=
  db.blacklist.any (fun b => b.jti == jti)

/-- The lockout test of `AuthService.login_user` line 105:
`user.locked_until and user.locked_until > datetime.utcnow()`. -/
def lockedNow (u : UserRecord) (now : Nat) : Bool :=
  match u.locked_until with
  | some t => decide (now < t)
  | none => false

/-- `AuthService.login_user` (auth_service.py lines 80-159). `accessJti`
and `refreshJti` are the fresh `uuid.uuid4()` values drawn inside
`create_access_token` / `create_refresh_token`. The returned `DB` is the
committed state (failed-attempt increments are committed on the error
paths too). -/
def login_user (db : DB) (cfg : Settings) (now : Nat)
    (accessJti refreshJti : String)
    (email password ip_address user_agent : String) :
    DB × Except AppError (UserRecord × TokenResponse) :=
  match db.users.find? (fun u => u.email == email) with
  | none => (db, .error .unauthorized)
  | some user =>
    if lockedNow user now then
      (db, .error .forbidden)
    else
      match verify_password password user.password_hash with
      | .unknownHashError => (db, .error .passlibUnknownHash)
      | .ok passwordOk =>
        if !passwordOk then
          let u1 : UserRecord :=
            { user with failed_login_attempts := user.failed_login_attempts + 1 }
          if u1.failed_login_attempts ≥ cfg.max_login_attempts then
            let lockT := now + cfg.account_lockout_duration_minutes * 60
            let u2 : UserRecord := { u1 with locked_until := some lockT }
            (updateUser db user.id u2, .error .forbidden)
          else
            (updateUser db user.id u1, .error .unauthorized)
        else if !user.is_active then
          (db, .error .forbidden)
        else
          let u3 : UserRecord :=
            { user with
              failed_login_attempts := 0
              locked_until := none
              last_login := some now }
          let access := create_access_token cfg now accessJti user.id user.role.value
          let refresh := create_refresh_token cfg now refreshJti user.id user.role.value
          let session : UserSession :=
            { user_id := user.id
              refresh_token_jti := refresh.2
              ip_address := ip_address
              user_agent := user_agent
              expires_at := now + cfg.jwt_refresh_token_expire_days * 86400 }
          let db' := updateUser db user.id u3
          ({ db' with sessions := db'.sessions ++ [session] },
           .ok (u3, { access_token := access.1, refresh_token := refresh.1,
                      token_type := "bearer",
                      expires_in := cfg.jwt_access_token_expire_minutes * 60 }))

/-- `AuthService.refresh_access_token` (auth_service.py lines 161-205).
`freshJti` is the fresh jti of the newly issued access token. Note
`payload.get("jti")` may be `None`, in which case the blacklist lookup
simply finds nothing, and `uuid.UUID(payload.get("sub"))` raises
`TypeError` when `sub` is absent. -/
def refresh_access_token (db : DB) (cfg : Settings) (now : Nat)
    (freshJti : String) (refresh_token : Jwt) : Except AppError TokenResponse :=
  match decode_token cfg now refresh_token with
  | .error e => .error e
  | .ok payload =>
    if payload.type ≠ some "refresh" then .error .unauthorized
    else if (match payload.jti with
             | some j => is_token_blacklisted db j
             | none => false) then .error .unauthorized
    else
      match payload.sub with
      | none => .error .typeError
      | some uid =>
        match db.users.find? (fun u => u.id == uid) with
        | none => .error .unauthorized
        | some user =>
          if !user.is_active then .error .unauthorized
          else
            .ok { access_token :=
                    (create_access_token cfg now freshJti user.id user.role.value).1
                  refresh_token := refresh_token
                  token_type := "bearer"
                  expires_in := cfg.jwt_access_token_expire_minutes * 60 }

/-- `AuthService.logout_user` (auth_service.py lines 207-239): decode both
tokens, stage one blacklist row per token, then run
`select(UserSession).where(...)` — a query, not a delete, so no session
row is removed — and commit. `payload["jti"]` / `payload["exp"]` raise
`KeyError` when the claim is absent. -/
def logout_user (db : DB) (cfg : Settings) (now : Nat)
    (access_token refresh_token : Jwt) : Except AppError DB :=
  match decode_token cfg now access_token with
  | .error e => .error e
  | .ok ap =>
    match decode_token cfg now refresh_token with
    | .error e => .error e
    | .ok rp =>
      match ap.jti, ap.exp, rp.jti, rp.exp with
      | some ajti, some aexp, some rjti, some rexp =>
        commitBlacklistInserts db
          [ { jti := ajti, token_type := "access", expires_at := aexp },
            { jti := rjti, token_type := "refresh", expires_at := rexp } ]
      | _, _, _, _ => .error .keyError

/-- `AuthService.logout_all_devices` (auth_service.py lines 241-263): stage
one refresh-class blacklist row per session of the account, then run
`select(UserSession).where(...)` (line 261) — again a query, not a
delete, so the session rows survive — and commit. -/
def logout_all_devices (db : DB) (user_id : Nat) : Except AppError DB :=
  let sessions := db.sessions.filter (fun s => s.user_id == user_id)
  commitBlacklistInserts db
    (sessions.map (fun s =>
      ({ jti := s.refresh_token_jti, token_type := "refresh",
         expires_at := s.expires_at } : TokenBlacklist)))

/-- `k` consecutive calls of `AuthService.login_user` with the same
credentials at the same time `now`, keeping the committed database state
(the iteration along which the lockout threshold is stated). -/
def loginIter (cfg : Settings) (now : Nat) (accessJti refreshJti : String)
    (email password ip_address user_agent : String) : Nat → DB → DB
  | 0, db => db
  | k + 1, db =>
      (login_user
        (loginIter cfg now accessJti refreshJti email password ip_address user_agent k db)
        cfg now accessJti refreshJti email password ip_address user_agent).1

/-! ## Permission service (`src/services/permission_service.py`) -/

/-- A `projects` row's ownership fields (project.py). -/
structure Project where
  id : Nat
  created_by : Nat
deriving DecidableEq, Repr

/-- An `issues` row's ownership fields (issue.py); `assignee_id` is
nullable. -/
structure Issue where
  id : Nat
  reporter_id : Nat
  assignee_id : Option Nat := none
deriving DecidableEq, Repr

/-- A `comments` row's ownership fields (comment.py). -/
structure Comment where
  id : Nat
  author_id : Nat
deriving DecidableEq, Repr

/-- The resource tables read by `PermissionService`. -/
structure ResourceDB where
  projects : List Project := []
  issues : List Issue := []
  comments : List Comment := []
deriving DecidableEq, Repr

/-- `PermissionService.can_create_project` (lines 27-36). -/
def can_create_project (user : UserRecord) : Bool :=
  user.role == UserRole.manager || user.role == UserRole.admin

/-- `PermissionService.can_edit_project` (lines 38-60): admin
short-circuits before the lookup; a missing project yields `False`. -/
def can_edit_project (rdb : ResourceDB) (user : UserRecord) (project_id : Nat) : Bool :=
  if user.role == UserRole.admin then true
  else
    match rdb.projects.find? (fun p => p.id == project_id) with
    | none => false
    | some project => project.created_by == user.id || user.role == UserRole.manager

/-- `PermissionService.can_archive_project` (lines 62-73): same as edit. -/
def can_archive_project (rdb : ResourceDB) (user : UserRecord) (project_id : Nat) : Bool :=
  can_edit_project rdb user project_id

/-- `PermissionService.can_create_issue` (lines 75-85). -/
def can_create_issue (_user : UserRecord) : Bool :=
  true

/-- `PermissionService.can_edit_issue` (lines 87-113). -/
def can_edit_issue (rdb : ResourceDB) (user : UserRecord) (issue_id : Nat) : Bool :=
  if user.role == UserRole.admin then true
  else
    match rdb.issues.find? (fun i => i.id == issue_id) with
    | none => false
    | some issue =>
      issue.reporter_id == user.id
        || issue.assignee_id == some user.id
        || user.role == UserRole.manager

/-- `PermissionService.can_change_assignee` (lines 115-137). -/
def can_change_assignee (rdb : ResourceDB) (user : UserRecord) (issue_id : Nat) : Bool :=
  if user.role == UserRole.admin || user.role == UserRole.manager then true
  else
    match rdb.issues.find? (fun i => i.id == issue_id) with
    | none => false
    | some issue => issue.reporter_id == user.id

/-- `PermissionService.can_add_comment` (lines 139-149). -/
def can_add_comment (_user : UserRecord) : Bool :=
  true

/-- `PermissionService.can_edit_comment` (lines 151-173). -/
def can_edit_comment (rdb : ResourceDB) (user : UserRecord) (comment_id : Nat) : Bool :=
  if user.role == UserRole.admin then true
  else
    match rdb.comments.find? (fun c => c.id == comment_id) with
    | none => false
    | some comment => comment.author_id == user.id

/-- A dispatch-table entry: the check functions take either one argument
(`user`) or two (`user, resource_id`). -/
inductive PermCheck
  | unary (f : UserRecord → Bool)
  | binary (f : UserRecord → Nat → Bool)

/-- The `permission_map` dict of `require_permission` (lines 191-200). -/
def permission_map (rdb : ResourceDB) (action : String) : Option PermCheck :=
  if action == "create_project" then some (.unary can_create_project)
  else if action == "edit_project" then some (.binary (can_edit_project rdb))
  else if action == "archive_project" then some (.binary (can_archive_project rdb))
  else if action == "create_issue" then some (.unary can_create_issue)
  else if action == "edit_issue" then some (.binary (can_edit_issue rdb))
  else if action == "change_assignee" then some (.binary (can_change_assignee rdb))
  else if action == "add_comment" then some (.unary can_add_comment)
  else if action == "edit_comment" then some (.binary (can_edit_comment rdb))
  else none

/-- The keys of the dispatch table, in source order. -/
def knownActions : List String :=
  [ "create_project", "edit_project", "archive_project", "create_issue",
    "edit_issue", "change_assignee", "add_comment", "edit_comment" ]

/-- `PermissionService.require_permission` (lines 175-215): unknown
actions raise `ValueError`; then `if resource_id:` picks the two-argument
call, so an arity mismatch between the chosen call shape and the looked-up
function is a Python `TypeError`; a `False` decision raises
`InsufficientPermissionsError`. -/
def require_permission (rdb : ResourceDB) (user : UserRecord) (action : String)
    (resource_id : Option Nat) : Except AppError Unit :=
  match permission_map rdb action with
  | none => .error .valueError
  | some check =>
    match resource_id, check with
    | some rid, .binary f =>
        if f user rid then .ok () else .error .insufficientPermissions
    | some _, .unary _ => .error .typeError
    | none, .unary f =>
        if f user then .ok () else .error .insufficientPermissions
    | none, .binary _ => .error .typeError

/-! ## Concrete fixtures used by the closed theorems below -/

/-- The default `Settings` values from config.py. -/
def cfgDefault : Settings := {}

/-- A developer account used to exercise the permission engine. -/
def devUser : UserRecord :=
  { id := 7, email := "dev@example.com", password_hash := "", role := .developer }

/-- A structurally valid token, signed with the configured key, carrying
no claims at all. -/
def noClaimsToken : Jwt := .signed {} 0

/-- A concrete access-token payload issued at time 0, expiring at 1000. -/
def accessPayload1 : JwtPayload :=
  { sub := some 1, role := some "developer", exp := some 1000, iat := some 0,
    jti := some "a1", type := some "access" }

/-- A concrete refresh-token payload issued at time 0, expiring at 1000. -/
def refreshPayload1 : JwtPayload :=
  { sub := some 1, role := some "developer", exp := some 1000, iat := some 0,
    jti := some "r1", type := some "refresh" }

/-- The signed access token for `accessPayload1`. -/
def accessToken1 : Jwt := .signed accessPayload1 0

/-- The signed refresh token for `refreshPayload1`. -/
def refreshToken1 : Jwt := .signed refreshPayload1 0

/-- The ledger state after one logout with `accessToken1`/`refreshToken1`
starting from an empty database. -/
def dbAfterLogout1 : DB :=
  { blacklist := [ { jti := "a1", token_type := "access", expires_at := 1000 },
                   { jti := "r1", token_type := "refresh", expires_at := 1000 } ] }

/-- An account owning one session, used to exercise logout-all. -/
def aliceUser : UserRecord :=
  { id := 1, email := "alice@example.com",
    password_hash := hash_password "s1" "correct-horse", role := .developer }

/-- Alice's single login session, keyed by refresh jti `r1`. -/
def aliceSession : UserSession :=
  { user_id := 1, refresh_token_jti := "r1", ip_address := "127.0.0.1",
    user_agent := "ua", expires_at := 604800 }

/-- Database with one account and one session. -/
def dbAlice : DB := { users := [aliceUser], sessions := [aliceSession] }

/-- The refresh token corresponding to Alice's session. -/
def aliceRefreshToken : Jwt :=
  .signed { sub := some 1, role := some "developer", exp := some 604800,
            iat := some 0, jti := some "r1", type := some "refresh" } 0

/-- The state `logout_all_devices` actually commits from `dbAlice`: the
ledger row is added but the session row survives. -/
def dbAliceAfterLogoutAll : DB :=
  { users := [aliceUser], sessions := [aliceSession],
    blacklist := [ { jti := "r1", token_type := "refresh", expires_at := 604800 } ] }

/-- Settings with a small lockout threshold for concrete lockout runs. -/
def cfgLock : Settings := { max_login_attempts := 2 }

/-- An account with a fresh failed-attempt counter and a known password
hash, used for concrete lockout runs. -/
def bobUser : UserRecord :=
  { id := 3, email := "bob@example.com", password_hash := hash_password "s3" "right" }

/-- Database holding just `bobUser`. -/
def dbBob : DB := { users := [bobUser] }

/-- `bobUser` after its lockout threshold has been reached. -/
def bobLocked : UserRecord :=
  { bobUser with failed_login_attempts := 2, locked_until := some 1900 }

/-- Database holding just `bobLocked`. -/
def dbBobLocked : DB := { users := [bobLocked] }

/-! ## Helper lemmas: tracking a user row across `updateUser` -/

theorem find?_map_update (l : List UserRecord) (email : String) (u u' : UserRecord)
    (hfind : l.find? (fun x => x.email == email) = some u)
    (hid : ∀ x ∈ l, x.id = u.id → x = u)
    (hmail : u'.email = u.email) :
    (l.map (fun x => if x.id == u.id then u' else x)).find?
      (fun x => x.email == email) = some u' := by
  induction l with
  | nil => simp at hfind
  | cons a l ih =>
    rw [List.map_cons]
    cases ha : (a.email == email) with
    | true =>
      have hau : a = u := by
        simp only [List.find?_cons, ha] at hfind
        exact Option.some.inj hfind
      subst hau
      rw [if_pos (beq_self_eq_true a.id)]
      simp only [List.find?_cons, hmail, ha]
    | false =>
      have hfind' : l.find? (fun x => x.email == email) = some u := by
        simp only [List.find?_cons, ha] at hfind
        exact hfind
      have hpu : (u.email == email) = true := by
        have hfs := List.find?_some hfind'
        simpa using hfs
      have haid : (a.id == u.id) = false := by
        cases hcase : (a.id == u.id) with
        | false => rfl
        | true =>
          have hau : a = u := hid a (List.mem_cons_self a l) (beq_iff_eq.mp hcase)
          rw [hau, hpu] at ha
          exact absurd ha (by simp)
      rw [if_neg (by simp [haid])]
      simp only [List.find?_cons, ha]
      exact ih hfind' (fun x hx => hid x (List.mem_cons_of_mem _ hx))

theorem mem_map_update (l : List UserRecord) (u u' : UserRecord)
    (hid : ∀ x ∈ l, x.id = u.id → x = u) (hid' : u'.id = u.id) :
    ∀ x ∈ l.map (fun x => if x.id == u.id then u' else x), x.id = u'.id → x = u' := by
  intro x hx hxid
  rw [List.mem_map] at hx
  obtain ⟨a, ha, rfl⟩ := hx
  cases h : (a.id == u.id) with
  | true => simp
  | false =>
    rw [h] at hxid
    simp only [Bool.false_eq_true, if_false] at hxid ⊢
    have hau : a = u := hid a ha (hxid.trans hid')
    rw [hau] at h
    exact absurd h (by simp)

/-! ## C4 — `verify_password` on malformed hashes -/

/-- C4 counterexample: `verify_password` on the malformed hash string
`"not-a-hash"` does not return `false`; passlib raises `UnknownHashError`
instead of producing a boolean. -/
theorem verify_password_malformed_cex :
    ¬ (verify_password "secret" "not-a-hash" = VerifyResult.ok false) := by
  decide

/-- C4 (amended): for every password and every malformed (non-bcrypt)
string `h`, `verify_password password h` propagates passlib's
`UnknownHashError` (a `ValueError`) rather than returning `false`;
a boolean comes back only for strings passlib identifies as hashes. -/
theorem verify_password_malformed (p h : String)
    (hmal : parseBcrypt h = none) :
    verify_password p h = VerifyResult.unknownHashError := by
  simp [verify_password, pwd_context_verify, hmal]

/-- Witness for `verify_password_malformed` at a concrete malformed
hash. -/
theorem verify_password_malformed_witness :
    parseBcrypt "not-a-hash" = none ∧
      verify_password "secret" "not-a-hash" = VerifyResult.unknownHashError :=
  ⟨by decide, verify_password_malformed "secret" "not-a-hash" (by decide)⟩

/-! ## C7 — token codec round-trip -/

/-- C7: decoding a token produced by `create_access_token` yields claims
with `sub` equal to the account id and `type = "access"`; likewise for
`create_refresh_token` with `type = "refresh"`. -/
theorem token_roundtrip (cfg : Settings) (now : Nat) (jti : String)
    (uid : Nat) (role : String) :
    ∃ p q,
      decode_token cfg now (create_access_token cfg now jti uid role).1 = .ok p ∧
      p.sub = some uid ∧ p.type = some "access" ∧
      decode_token cfg now (create_refresh_token cfg now jti uid role).1 = .ok q ∧
      q.sub = some uid ∧ q.type = some "refresh" := by
  refine ⟨{ sub := some uid, role := some role,
            exp := some (now + cfg.jwt_access_token_expire_minutes * 60),
            iat := some now, jti := some jti, type := some "access" },
          { sub := some uid, role := some role,
            exp := some (now + cfg.jwt_refresh_token_expire_days * 86400),
            iat := some now, jti := some jti, type := some "refresh" },
          ?_, rfl, rfl, ?_, rfl, rfl⟩ <;>
    simp [decode_token, jwt_decode, create_access_token, create_refresh_token]

/-! ## C5 — `decode_token` error classification -/

/-- C5 counterexample: a correctly signed, unexpired token carrying none
of the required claims (`sub`, `role`, `exp`, `iat`, `jti`, `type`) is
decoded successfully instead of failing with `TokenInvalid`. -/
theorem decode_missing_claims_cex :
    decode_token cfgDefault 100 noClaimsToken = .ok ({} : JwtPayload) ∧
      decode_token cfgDefault 100 noClaimsToken ≠ .error .unauthorized :=
  ⟨rfl, by intro h; simp [cfgDefault, noClaimsToken, decode_token, jwt_decode] at h⟩

/-- C5 (amended): `decode_token` fails with `TokenExpired` exactly when the
token is structurally valid, correctly signed, and carries an `exp` claim
in the past; it fails with `TokenInvalid` (`UnauthorizedError`) for
malformed structure or a bad signature; but missing claims are not
rejected — a well-signed token decodes to its payload as-is even with
every claim absent (PyJWT is not configured to require any claim). -/
theorem decode_token_classification (cfg : Settings) (now : Nat) :
    (∀ raw, decode_token cfg now (.malformed raw) = .error .unauthorized) ∧
    (∀ p k, k ≠ cfg.jwt_key →
      decode_token cfg now (.signed p k) = .error .unauthorized) ∧
    (∀ p, decode_token cfg now (.signed p cfg.jwt_key) = .error .tokenExpired ↔
      ∃ e, p.exp = some e ∧ e < now) ∧
    (∀ p, p.exp = none → decode_token cfg now (.signed p cfg.jwt_key) = .ok p) ∧
    (∀ p e, p.exp = some e → ¬ e < now →
      decode_token cfg now (.signed p cfg.jwt_key) = .ok p) := by
  refine ⟨fun raw => rfl, fun p k hk => ?_, fun p => ?_, fun p he => ?_,
    fun p e he hlt => ?_⟩
  · simp [decode_token, jwt_decode, hk]
  · constructor
    · intro h
      cases hexp : p.exp with
      | none => simp [decode_token, jwt_decode, hexp] at h
      | some e =>
        by_cases hlt : e < now
        · exact ⟨e, rfl, hlt⟩
        · simp [decode_token, jwt_decode, hexp, hlt] at h
    · rintro ⟨e, hexp, hlt⟩
      simp [decode_token, jwt_decode, hexp, hlt]
  · simp [decode_token, jwt_decode, he]
  · simp [decode_token, jwt_decode, he, hlt]

/-- Witness for `decode_token_classification`: a concrete well-signed
token with no `exp` claim decodes successfully. -/
theorem decode_token_classification_witness :
    ({} : JwtPayload).exp = none ∧
      decode_token cfgDefault 5 (.signed {} cfgDefault.jwt_key) = .ok {} :=
  ⟨rfl, (decode_token_classification cfgDefault 5).2.2.2.1 {} rfl⟩

/-! ## C6 — permission checks on missing resources -/

/-- C6 counterexample: `require_permission` for `edit_project` on a
project id that does not exist fails with `InsufficientPermissions`,
not with `NotFound`. -/
theorem missing_resource_cex :
    require_permission {} devUser "edit_project" (some 1) =
        .error .insufficientPermissions ∧
      (Except.error AppError.insufficientPermissions : Except AppError Unit) ≠
        .error .notFound :=
  ⟨rfl, by intro h; simp at h⟩

/-- C6 (amended): a resource-dependent check on a missing resource id
returns `False` (after the role short-circuits: admin for
edit/archive-project, edit-issue and edit-comment; admin or manager for
change-assignee), so `require_permission` fails with
`InsufficientPermissions`; it never fails with `NotFound`; and for the
action actually dispatched it fails with `InsufficientPermissions` exactly
when the decision — over existing data or a missing resource alike — is
false. -/
theorem require_permission_missing_resource (rdb : ResourceDB)
    (u : UserRecord) (rid : Nat) :
    (u.role ≠ .admin → rdb.projects.find? (fun p => p.id == rid) = none →
      require_permission rdb u "edit_project" (some rid) =
          .error .insufficientPermissions ∧
        require_permission rdb u "archive_project" (some rid) =
          .error .insufficientPermissions) ∧
    (u.role ≠ .admin → rdb.issues.find? (fun i => i.id == rid) = none →
      require_permission rdb u "edit_issue" (some rid) =
        .error .insufficientPermissions) ∧
    (u.role ≠ .admin → u.role ≠ .manager →
      rdb.issues.find? (fun i => i.id == rid) = none →
      require_permission rdb u "change_assignee" (some rid) =
        .error .insufficientPermissions) ∧
    (u.role ≠ .admin → rdb.comments.find? (fun c => c.id == rid) = none →
      require_permission rdb u "edit_comment" (some rid) =
        .error .insufficientPermissions) ∧
    (∀ action rid', require_permission rdb u action rid' ≠ .error .notFound) ∧
    (∀ action f, permission_map rdb action = some (.binary f) →
      (require_permission rdb u action (some rid) =
          .error .insufficientPermissions ↔ f u rid = false)) ∧
    (∀ action f, permission_map rdb action = some (.unary f) →
      (require_permission rdb u action none =
          .error .insufficientPermissions ↔ f u = false)) := by
  have hadm : u.role ≠ UserRole.admin → (u.role == UserRole.admin) = false :=
    fun h => beq_eq_false_iff_ne.mpr h
  have hmgr : u.role ≠ UserRole.manager → (u.role == UserRole.manager) = false :=
    fun h => beq_eq_false_iff_ne.mpr h
  refine ⟨fun h1 h2 => ?_, fun h1 h2 => ?_, fun h1 h2 h3 => ?_,
    fun h1 h2 => ?_, fun action rid' => ?_, fun action f hf => ?_,
    fun action f hf => ?_⟩
  · constructor <;>
      simp [require_permission, permission_map, can_edit_project,
        can_archive_project, hadm h1, h2]
  · simp [require_permission, permission_map, can_edit_issue, hadm h1, h2]
  · simp [require_permission, permission_map, can_change_assignee,
      hadm h1, hmgr h2, h3]
  · simp [require_permission, permission_map, can_edit_comment, hadm h1, h2]
  · unfold require_permission
    cases hm : permission_map rdb action with
    | none => simp
    | some check =>
      cases rid' with
      | none => cases check <;> simp <;> split <;> simp
      | some r => cases check <;> simp <;> split <;> simp
  · simp only [require_permission, hf]
    cases hc : f u rid <;> simp [hc]
  · simp only [require_permission, hf]
    cases hc : f u <;> simp [hc]

/-- Witness for `require_permission_missing_resource`: a developer asking
to edit a project that does not exist gets `InsufficientPermissions`. -/
theorem require_permission_missing_resource_witness :
    (devUser.role ≠ .admin ∧
        (ResourceDB.projects {}).find? (fun p => p.id == 1) = none) ∧
      require_permission {} devUser "edit_project" (some 1) =
          .error .insufficientPermissions ∧
        require_permission {} devUser "archive_project" (some 1) =
          .error .insufficientPermissions :=
  ⟨⟨by decide, rfl⟩,
    (require_permission_missing_resource {} devUser 1).1 (by decide) rfl⟩

/-! ## C10 — unknown actions raise `ValueError` -/

/-- C10: for every action string not among the eight known actions,
`require_permission` raises `ValueError` (not
`InsufficientPermissions`), whatever the account's role and whatever
resource id is passed. -/
theorem unknown_action_value_error (rdb : ResourceDB) (u : UserRecord)
    (rid : Option Nat) (action : String) (h : action ∉ knownActions) :
    require_permission rdb u action rid = .error .valueError := by
  simp only [knownActions, List.mem_cons, List.not_mem_nil, or_false,
    not_or] at h
  obtain ⟨h1, h2, h3, h4, h5, h6, h7, h8⟩ := h
  simp [require_permission, permission_map, beq_iff_eq,
    h1, h2, h3, h4, h5, h6, h7, h8]

/-- Witness for `unknown_action_value_error` at the unknown action
`"frobnicate"`. -/
theorem unknown_action_value_error_witness :
    "frobnicate" ∉ knownActions ∧
      require_permission {} devUser "frobnicate" (some 1) =
        .error .valueError :=
  ⟨by decide, unknown_action_value_error {} devUser (some 1) "frobnicate"
    (by decide)⟩

/-! ## Branch lemmas for `login_user` -/

theorem login_user_locked_step (db : DB) (cfg : Settings) (now : Nat)
    (aj rj email password ip ua : String) (u : UserRecord)
    (hfind : db.users.find? (fun x => x.email == email) = some u)
    (hl : lockedNow u now = true) :
    login_user db cfg now aj rj email password ip ua =
      (db, .error .forbidden) := by
  simp [login_user, hfind, hl]

theorem login_user_hash_error_step (db : DB) (cfg : Settings) (now : Nat)
    (aj rj email password ip ua : String) (u : UserRecord)
    (hfind : db.users.find? (fun x => x.email == email) = some u)
    (hlock : lockedNow u now = false)
    (hpw : verify_password password u.password_hash =
      VerifyResult.unknownHashError) :
    login_user db cfg now aj rj email password ip ua =
      (db, .error .passlibUnknownHash) := by
  simp [login_user, hfind, hlock, hpw]

theorem login_user_wrong_password_step (db : DB) (cfg : Settings) (now : Nat)
    (aj rj email password ip ua : String) (u : UserRecord)
    (hfind : db.users.find? (fun x => x.email == email) = some u)
    (hlock : lockedNow u now = false)
    (hpw : verify_password password u.password_hash = VerifyResult.ok false) :
    login_user db cfg now aj rj email password ip ua =
      (if u.failed_login_attempts + 1 ≥ cfg.max_login_attempts then
        (updateUser db u.id
          { u with
            failed_login_attempts := u.failed_login_attempts + 1
            locked_until :=
              some (now + cfg.account_lockout_duration_minutes * 60) },
         .error .forbidden)
      else
        (updateUser db u.id
          { u with failed_login_attempts := u.failed_login_attempts + 1 },
         .error .unauthorized)) := by
  simp only [login_user, hfind, hlock, hpw, Bool.false_eq_true, if_false,
    Bool.not_false, if_true]

theorem login_user_inactive_step (db : DB) (cfg : Settings) (now : Nat)
    (aj rj email password ip ua : String) (u : UserRecord)
    (hfind : db.users.find? (fun x => x.email == email) = some u)
    (hlock : lockedNow u now = false)
    (hpw : verify_password password u.password_hash = VerifyResult.ok true)
    (hact : u.is_active = false) :
    login_user db cfg now aj rj email password ip ua =
      (db, .error .forbidden) := by
  simp [login_user, hfind, hlock, hpw, hact]

theorem login_user_success_step (db : DB) (cfg : Settings) (now : Nat)
    (aj rj email password ip ua : String) (u : UserRecord)
    (hfind : db.users.find? (fun x => x.email == email) = some u)
    (hlock : lockedNow u now = false)
    (hpw : verify_password password u.password_hash = VerifyResult.ok true)
    (hact : u.is_active = true) :
    ∃ resp,
      login_user db cfg now aj rj email password ip ua =
        ({ updateUser db u.id
             { u with
               failed_login_attempts := 0
               locked_until := none
               last_login := some now } with
           sessions :=
             (updateUser db u.id
               { u with
                 failed_login_attempts := 0
                 locked_until := none
                 last_login := some now }).sessions ++
               [ { user_id := u.id
                   refresh_token_jti :=
                     (create_refresh_token cfg now rj u.id u.role.value).2
                   ip_address := ip
                   user_agent := ua
                   expires_at :=
                     now + cfg.jwt_refresh_token_expire_days * 86400 } ] },
         .ok ({ u with
                failed_login_attempts := 0
                locked_until := none
                last_login := some now }, resp)) := by
  simp only [login_user, hfind, hlock, hpw, hact, Bool.not_true,
    Bool.false_eq_true, if_false]
  exact ⟨_, rfl⟩

/-! ## C3 — lockout after exactly N failed attempts -/

/-- C3: starting from a fresh counter, each of the first `N - 1`
consecutive failed password verifications is rejected `Unauthorized` and
leaves the account unlocked with counter `k`; the `N`-th
(`N = max_login_attempts`) fails `Forbidden` and locks the account until
`now + account_lockout_duration_minutes * 60`; and any login attempt while
`locked_until` lies in the future fails `Forbidden` with the database
unchanged — no counter increment — whatever password is supplied, i.e.
before password comparison can matter. -/
theorem lockout_after_max_attempts (db : DB) (cfg : Settings) (now : Nat)
    (aj rj email password ip ua : String) (u : UserRecord)
    (hfind : db.users.find? (fun x => x.email == email) = some u)
    (hid : ∀ x ∈ db.users, x.id = u.id → x = u)
    (hcnt : u.failed_login_attempts = 0)
    (hlock : u.locked_until = none)
    (hpw : verify_password password u.password_hash = VerifyResult.ok false)
    (hN : 1 ≤ cfg.max_login_attempts) :
    (∀ k, k < cfg.max_login_attempts →
      (loginIter cfg now aj rj email password ip ua k db).users.find?
          (fun x => x.email == email) =
        some { u with failed_login_attempts := k }) ∧
    (∀ k, k < cfg.max_login_attempts →
      (login_user (loginIter cfg now aj rj email password ip ua k db) cfg now
          aj rj email password ip ua).2 =
        (if k + 1 = cfg.max_login_attempts then Except.error AppError.forbidden
         else Except.error AppError.unauthorized)) ∧
    ((loginIter cfg now aj rj email password ip ua cfg.max_login_attempts
        db).users.find? (fun x => x.email == email) =
      some { u with
             failed_login_attempts := cfg.max_login_attempts
             locked_until :=
               some (now + cfg.account_lockout_duration_minutes * 60) }) ∧
    (∀ db' u' password' now' t,
      db'.users.find? (fun x => x.email == email) = some u' →
      u'.locked_until = some t → now' < t →
      login_user db' cfg now' aj rj email password' ip ua =
        (db', Except.error AppError.forbidden)) := by
  have hu0 : ({ u with failed_login_attempts := 0 } : UserRecord) = u := by
    rw [← hcnt]
  have inv : ∀ k, k < cfg.max_login_attempts →
      (loginIter cfg now aj rj email password ip ua k db).users.find?
          (fun x => x.email == email) =
        some { u with failed_login_attempts := k } ∧
      (∀ x ∈ (loginIter cfg now aj rj email password ip ua k db).users,
        x.id = u.id → x = { u with failed_login_attempts := k }) := by
    intro k
    induction k with
    | zero =>
      intro _
      constructor
      · rw [hu0]; exact hfind
      · rw [hu0]; exact hid
    | succ k ih =>
      intro hk1
      have hk : k < cfg.max_login_attempts := Nat.lt_of_succ_lt hk1
      obtain ⟨hf, hinv⟩ := ih hk
      have hlk : lockedNow ({ u with failed_login_attempts := k } : UserRecord)
          now = false := by
        simp [lockedNow, hlock]
      have hpw' : verify_password password
          ({ u with failed_login_attempts := k } : UserRecord).password_hash =
            VerifyResult.ok false := hpw
      have step := login_user_wrong_password_step _ cfg now aj rj email password
        ip ua _ hf hlk hpw'
      have hcond : ¬ (({ u with failed_login_attempts := k } :
          UserRecord).failed_login_attempts + 1 ≥ cfg.max_login_attempts) := by
        show ¬ (k + 1 ≥ cfg.max_login_attempts)
        omega
      rw [if_neg hcond] at step
      constructor
      · simp only [loginIter]
        rw [step]
        exact find?_map_update _ email _ _ hf hinv rfl
      · simp only [loginIter]
        rw [step]
        exact mem_map_update _ _ _ hinv rfl
  refine ⟨fun k hk => (inv k hk).1, fun k hk => ?_, ?_, ?_⟩
  · obtain ⟨hf, hinv⟩ := inv k hk
    have hlk : lockedNow ({ u with failed_login_attempts := k } : UserRecord)
        now = false := by
      simp [lockedNow, hlock]
    have hpw' : verify_password password
        ({ u with failed_login_attempts := k } : UserRecord).password_hash =
          VerifyResult.ok false := hpw
    have step := login_user_wrong_password_step _ cfg now aj rj email password
      ip ua _ hf hlk hpw'
    by_cases hkeq : k + 1 = cfg.max_login_attempts
    · have hcond : ({ u with failed_login_attempts := k } :
          UserRecord).failed_login_attempts + 1 ≥ cfg.max_login_attempts := by
        show k + 1 ≥ cfg.max_login_attempts
        omega
      rw [if_pos hcond] at step
      rw [step, if_pos hkeq]
    · have hcond : ¬ (({ u with failed_login_attempts := k } :
          UserRecord).failed_login_attempts + 1 ≥ cfg.max_login_attempts) := by
        show ¬ (k + 1 ≥ cfg.max_login_attempts)
        omega
      rw [if_neg hcond] at step
      rw [step, if_neg hkeq]
  · obtain ⟨m, hm⟩ : ∃ m, cfg.max_login_attempts = m + 1 :=
      ⟨cfg.max_login_attempts - 1, by omega⟩
    obtain ⟨hf, hinv⟩ := inv m (by omega)
    have hlk : lockedNow ({ u with failed_login_attempts := m } : UserRecord)
        now = false := by
      simp [lockedNow, hlock]
    have hpw' : verify_password password
        ({ u with failed_login_attempts := m } : UserRecord).password_hash =
          VerifyResult.ok false := hpw
    have step := login_user_wrong_password_step _ cfg now aj rj email password
      ip ua _ hf hlk hpw'
    have hcond : ({ u with failed_login_attempts := m } :
        UserRecord).failed_login_attempts + 1 ≥ cfg.max_login_attempts := by
      show m + 1 ≥ cfg.max_login_attempts
      omega
    rw [if_pos hcond] at step
    rw [hm]
    simp only [loginIter]
    rw [step]
    exact find?_map_update _ email _ _ hf hinv rfl
  · intro db' u' password' now' t hfind' hlt' hnow'
    have hl : lockedNow u' now' = true := by
      simp [lockedNow, hlt', hnow']
    exact login_user_locked_step db' cfg now' aj rj email password' ip ua u'
      hfind' hl

/-- Witness for `lockout_after_max_attempts`: with a threshold of 2, two
wrong-password attempts lock Bob until `100 + 30 * 60 = 1900`. -/
theorem lockout_after_max_attempts_witness :
    (dbBob.users.find? (fun x => x.email == "bob@example.com") = some bobUser ∧
      verify_password "wrong" bobUser.password_hash = VerifyResult.ok false ∧
      1 ≤ cfgLock.max_login_attempts) ∧
      (loginIter cfgLock 100 "aj" "rj" "bob@example.com" "wrong" "ip" "ua"
          cfgLock.max_login_attempts dbBob).users.find?
          (fun x => x.email == "bob@example.com") =
        some { bobUser with
               failed_login_attempts := cfgLock.max_login_attempts
               locked_until :=
                 some (100 + cfgLock.account_lockout_duration_minutes * 60) } :=
  ⟨⟨by decide, by decide, by decide⟩,
    (lockout_after_max_attempts dbBob cfgLock 100 "aj" "rj" "bob@example.com"
      "wrong" "ip" "ua" bobUser (by decide) (by decide) rfl rfl (by decide)
      (by decide)).2.2.1⟩

/-! ## C9 — the failed counter persists at or above the threshold -/

/-- C9: once the failed-attempt counter has reached the lockout threshold
it stays at or above it through any login attempt that does not succeed —
only a successful login resets it to zero — and in particular, once the
lockout window has passed without an intervening success, a single
further failed password attempt immediately re-locks the account for a
full lockout duration. -/
theorem failed_counter_persists (db : DB) (cfg : Settings) (now : Nat)
    (aj rj email password ip ua : String) (u : UserRecord)
    (hfind : db.users.find? (fun x => x.email == email) = some u)
    (hid : ∀ x ∈ db.users, x.id = u.id → x = u)
    (hge : u.failed_login_attempts ≥ cfg.max_login_attempts) :
    (∀ res, (login_user db cfg now aj rj email password ip ua).2 =
        Except.ok res →
      (login_user db cfg now aj rj email password ip ua).1.users.find?
          (fun x => x.email == email) = some res.1 ∧
        res.1.failed_login_attempts = 0) ∧
    (∀ e, (login_user db cfg now aj rj email password ip ua).2 =
        Except.error e →
      ∃ u', (login_user db cfg now aj rj email password ip ua).1.users.find?
          (fun x => x.email == email) = some u' ∧
        u'.failed_login_attempts ≥ cfg.max_login_attempts) ∧
    (∀ t, u.locked_until = some t → t ≤ now →
      verify_password password u.password_hash = VerifyResult.ok false →
      login_user db cfg now aj rj email password ip ua =
        (updateUser db u.id
          { u with
            failed_login_attempts := u.failed_login_attempts + 1
            locked_until :=
              some (now + cfg.account_lockout_duration_minutes * 60) },
         Except.error AppError.forbidden)) := by
  refine ⟨?_, ?_, ?_⟩
  · intro res hres
    cases hl : lockedNow u now with
    | true =>
      rw [login_user_locked_step db cfg now aj rj email password ip ua u
        hfind hl] at hres
      simp at hres
    | false =>
      cases hv : verify_password password u.password_hash with
      | unknownHashError =>
        rw [login_user_hash_error_step db cfg now aj rj email password ip ua u
          hfind hl hv] at hres
        simp at hres
      | ok b =>
        cases b with
        | false =>
          have step := login_user_wrong_password_step db cfg now aj rj email
            password ip ua u hfind hl hv
          rw [if_pos (by omega : u.failed_login_attempts + 1 ≥
            cfg.max_login_attempts)] at step
          rw [step] at hres
          simp at hres
        | true =>
          cases hact : u.is_active with
          | false =>
            rw [login_user_inactive_step db cfg now aj rj email password ip ua
              u hfind hl hv hact] at hres
            simp at hres
          | true =>
            obtain ⟨resp, hstep⟩ := login_user_success_step db cfg now aj rj
              email password ip ua u hfind hl hv hact
            have hinj : (Except.ok
                (({ u with
                    failed_login_attempts := 0
                    locked_until := none
                    last_login := some now } : UserRecord), resp) :
                  Except AppError (UserRecord × TokenResponse)) =
                  Except.ok res := by
              rw [hstep] at hres
              exact hres
            have hpair := Except.ok.inj hinj
            subst hpair
            constructor
            · rw [hstep]
              exact find?_map_update _ email _ _ hfind hid rfl
            · rfl
  · intro e hres
    cases hl : lockedNow u now with
    | true =>
      rw [login_user_locked_step db cfg now aj rj email password ip ua u
        hfind hl]
      exact ⟨u, hfind, hge⟩
    | false =>
      cases hv : verify_password password u.password_hash with
      | unknownHashError =>
        rw [login_user_hash_error_step db cfg now aj rj email password ip ua u
          hfind hl hv]
        exact ⟨u, hfind, hge⟩
      | ok b =>
        cases b with
        | false =>
          have step := login_user_wrong_password_step db cfg now aj rj email
            password ip ua u hfind hl hv
          rw [if_pos (by omega : u.failed_login_attempts + 1 ≥
            cfg.max_login_attempts)] at step
          rw [step]
          refine ⟨_, find?_map_update _ email _ _ hfind hid rfl, ?_⟩
          show u.failed_login_attempts + 1 ≥ cfg.max_login_attempts
          omega
        | true =>
          cases hact : u.is_active with
          | false =>
            rw [login_user_inactive_step db cfg now aj rj email password ip ua
              u hfind hl hv hact]
            exact ⟨u, hfind, hge⟩
          | true =>
            obtain ⟨resp, hstep⟩ := login_user_success_step db cfg now aj rj
              email password ip ua u hfind hl hv hact
            rw [hstep] at hres
            simp at hres
  · intro t ht hnow hpw
    have hl : lockedNow u now = false := by
      simp only [lockedNow, ht]
      simp [decide_eq_false_iff_not]
      omega
    have step := login_user_wrong_password_step db cfg now aj rj email
      password ip ua u hfind hl hpw
    rw [if_pos (by omega : u.failed_login_attempts + 1 ≥
      cfg.max_login_attempts)] at step
    exact step

/-- Witness for `failed_counter_persists`: Bob's lockout has expired at
time 2000; one more wrong password immediately re-locks him until
`2000 + 30 * 60 = 3800`. -/
theorem failed_counter_persists_witness :
    (dbBobLocked.users.find? (fun x => x.email == "bob@example.com") =
        some bobLocked ∧
      bobLocked.failed_login_attempts ≥ cfgLock.max_login_attempts ∧
      bobLocked.locked_until = some 1900 ∧
      verify_password "wrong" bobLocked.password_hash =
        VerifyResult.ok false) ∧
      login_user dbBobLocked cfgLock 2000 "aj" "rj" "bob@example.com" "wrong"
          "ip" "ua" =
        (updateUser dbBobLocked bobLocked.id
          { bobLocked with
            failed_login_attempts := bobLocked.failed_login_attempts + 1
            locked_until :=
              some (2000 + cfgLock.account_lockout_duration_minutes * 60) },
         Except.error AppError.forbidden) :=
  ⟨⟨by decide, by decide, rfl, by decide⟩,
    (failed_counter_persists dbBobLocked cfgLock 2000 "aj" "rj"
      "bob@example.com" "wrong" "ip" "ua" bobLocked (by decide) (by decide)
      (by decide)).2.2 1900 rfl (by decide) (by decide)⟩

/-! ## C2 — revocation is not idempotent -/

/-- C2 counterexample: the logout flow succeeds once, but running it a
second time with the same two tokens hits the UNIQUE constraint on
`token_blacklist.jti` and fails with `IntegrityError` instead of being a
no-op. -/
theorem logout_twice_cex :
    logout_user {} cfgDefault 10 accessToken1 refreshToken1 =
        .ok dbAfterLogout1 ∧
      logout_user dbAfterLogout1 cfgDefault 10 accessToken1 refreshToken1 =
        .error .integrityError :=
  ⟨rfl, rfl⟩

/-- C2 (amended): inserting a revocation entry for a token identifier that
is already revoked is not a no-op — `token_blacklist.jti` is UNIQUE and the
code stages the insert unconditionally, so the commit raises
`IntegrityError`; in particular the logout flow run a second time over the
same tokens fails instead of leaving the ledger unchanged. -/
theorem revoke_duplicate_integrity_error (db : DB) :
    (∀ e : TokenBlacklist, e.jti ∈ db.blacklist.map (fun b => b.jti) →
      commitBlacklistInserts db [e] = .error .integrityError) ∧
    (∀ cfg now atk rtk ap rp aj,
      decode_token cfg now atk = .ok ap →
      decode_token cfg now rtk = .ok rp →
      ap.jti = some aj → (∃ ae, ap.exp = some ae) →
      (∃ rj, rp.jti = some rj) → (∃ re', rp.exp = some re') →
      is_token_blacklisted db aj = true →
      logout_user db cfg now atk rtk = .error .integrityError) := by
  have keyfact : ∀ (added : List TokenBlacklist) (j : String),
      j ∈ db.blacklist.map (fun b => b.jti) → j ∈ added.map (fun b => b.jti) →
      commitBlacklistInserts db added = .error .integrityError := by
    intro added j hold hnew
    have hnot : ¬ (db.blacklist.map (fun b => b.jti) ++
        added.map (fun b => b.jti)).Nodup := by
      rw [List.nodup_append]
      rintro ⟨-, -, hdisj⟩
      exact hdisj hold hnew
    simp [commitBlacklistInserts, List.map_append, hnot]
  constructor
  · intro e hmem
    exact keyfact [e] e.jti hmem (by simp)
  · rintro cfg now atk rtk ap rp aj hda hdr hjti ⟨ae, hae⟩ ⟨rj, hrj⟩ ⟨re', hre⟩
      hblk
    have hold : aj ∈ db.blacklist.map (fun b => b.jti) := by
      simp only [is_token_blacklisted, List.any_eq_true] at hblk
      obtain ⟨b, hb, hbj⟩ := hblk
      exact List.mem_map.mpr ⟨b, hb, beq_iff_eq.mp hbj⟩
    simp only [logout_user, hda, hdr, hjti, hae, hrj, hre]
    exact keyfact _ aj hold (by simp)

/-- Witness for `revoke_duplicate_integrity_error`: re-inserting the
already-revoked jti `"r1"` fails with `IntegrityError`. -/
theorem revoke_duplicate_integrity_error_witness :
    "r1" ∈ dbAfterLogout1.blacklist.map (fun b => b.jti) ∧
      commitBlacklistInserts dbAfterLogout1
          [ { jti := "r1", token_type := "refresh", expires_at := 1000 } ] =
        .error .integrityError :=
  ⟨by decide, (revoke_duplicate_integrity_error dbAfterLogout1).1
    { jti := "r1", token_type := "refresh", expires_at := 1000 } (by decide)⟩

/-! ## C1 — logout-all revokes but does not remove sessions -/

/-- C1 (code bug): from a database with one account owning one session,
`logout_all_devices` blacklists the session's refresh jti — after which a
refresh attempt with that token fails `Unauthorized` — but the session
rows survive, because auth_service.py line 261 runs
`select(UserSession)` (a query) where the comment above it says
`Delete all sessions`; the account does not end up with zero sessions. -/
theorem logout_all_devices_keeps_sessions :
    logout_all_devices dbAlice 1 = .ok dbAliceAfterLogoutAll ∧
      dbAliceAfterLogoutAll.sessions = dbAlice.sessions ∧
      dbAliceAfterLogoutAll.sessions ≠ [] ∧
      is_token_blacklisted dbAliceAfterLogoutAll "r1" = true ∧
      refresh_access_token dbAliceAfterLogoutAll cfgDefault 100 "fresh1"
          aliceRefreshToken =
        .error .unauthorized := by
  refine ⟨rfl, rfl, ?_, rfl, rfl⟩
  decide

/-! ## C8 — refresh issues a new access token without rotation -/

/-- C8: for a valid, unrevoked refresh token of an active account, the
refresh flow returns a new access token together with the same,
unrotated refresh token; and it fails `Unauthorized` when the `type`
claim is not `"refresh"`, when the jti is revoked, or when the account is
missing or inactive. -/
theorem refresh_token_flow (db : DB) (cfg : Settings) (now : Nat)
    (freshJti : String) :
    (∀ p e j uid user, p.type = some "refresh" → p.exp = some e → ¬ e < now →
      p.jti = some j → is_token_blacklisted db j = false →
      p.sub = some uid → db.users.find? (fun u => u.id == uid) = some user →
      user.is_active = true →
      refresh_access_token db cfg now freshJti (.signed p cfg.jwt_key) =
        .ok { access_token :=
                (create_access_token cfg now freshJti user.id user.role.value).1
              refresh_token := .signed p cfg.jwt_key
              token_type := "bearer"
              expires_in := cfg.jwt_access_token_expire_minutes * 60 }) ∧
    (∀ p e, p.exp = some e → ¬ e < now → p.type ≠ some "refresh" →
      refresh_access_token db cfg now freshJti (.signed p cfg.jwt_key) =
        .error .unauthorized) ∧
    (∀ p e j, p.type = some "refresh" → p.exp = some e → ¬ e < now →
      p.jti = some j → is_token_blacklisted db j = true →
      refresh_access_token db cfg now freshJti (.signed p cfg.jwt_key) =
        .error .unauthorized) ∧
    (∀ p e j uid, p.type = some "refresh" → p.exp = some e → ¬ e < now →
      p.jti = some j → is_token_blacklisted db j = false →
      p.sub = some uid →
      db.users.find? (fun u => u.id == uid) = none →
      refresh_access_token db cfg now freshJti (.signed p cfg.jwt_key) =
        .error .unauthorized) ∧
    (∀ p e j uid user, p.type = some "refresh" → p.exp = some e → ¬ e < now →
      p.jti = some j → is_token_blacklisted db j = false →
      p.sub = some uid → db.users.find? (fun u => u.id == uid) = some user →
      user.is_active = false →
      refresh_access_token db cfg now freshJti (.signed p cfg.jwt_key) =
        .error .unauthorized) := by
  refine ⟨fun p e j uid user ht he hlt hj hbl hs hf hact => ?_,
    fun p e he hlt ht => ?_, fun p e j ht he hlt hj hbl => ?_,
    fun p e j uid ht he hlt hj hbl hs hf => ?_,
    fun p e j uid user ht he hlt hj hbl hs hf hact => ?_⟩ <;>
    simp [refresh_access_token, decode_token, jwt_decode, *]

/-- Witness for `refresh_token_flow`: Alice's refresh token, before any
logout, yields a fresh access token and the same refresh token. -/
theorem refresh_token_flow_witness :
    is_token_blacklisted dbAlice "r1" = false ∧
      refresh_access_token dbAlice cfgDefault 100 "fresh1" aliceRefreshToken =
        .ok { access_token :=
                (create_access_token cfgDefault 100 "fresh1" aliceUser.id
                  aliceUser.role.value).1
              refresh_token := aliceRefreshToken
              token_type := "bearer"
              expires_in := cfgDefault.jwt_access_token_expire_minutes * 60 } :=
  ⟨by decide,
    (refresh_token_flow dbAlice cfgDefault 100 "fresh1").1
      { sub := some 1, role := some "developer", exp := some 604800,
        iat := some 0, jti := some "r1", type := some "refresh" }
      604800 "r1" 1 aliceUser rfl rfl (by decide) rfl (by decide) rfl
      (by decide) rfl⟩

end BugTracker
